import Mathlib

/-
Verification of the oauth_dispatch djangoapp: scope catalog, restricted
application trust classifier, organization filter deriver, and the
authorization decision engine of EdxOAuth2AuthorizationView.get.

Shallow embedding: each Python function from the source is translated into
a pure Lean function.  Collaborators provided by the external oauth2_provider
library (request validation, authorization response creation, the default GET
handler of the base AuthorizationView) are passed in as parameters, following
the interface descriptions of the spec.
-/

namespace OAuthDispatch

/-- Timezone-aware UTC datetime, mirroring Python datetime(y, m, d, ...) with
tzinfo=utc.  Equality of two such values is field-wise equality, which is what
the == comparison in verify_access_token_as_expired performs. -/
structure DateTime where
  year : Nat
  month : Nat
  day : Nat
  hour : Nat
  minute : Nat
  second : Nat
  microsecond : Nat
deriving DecidableEq, Repr

/-- datetime(1970, 1, 1, tzinfo=utc), the epoch sentinel used by
RestrictedApplication in models.py. -/
def epochSentinel : DateTime := ⟨1970, 1, 1, 0, 0, 0, 0⟩

/-- One row of ScopedApplicationOrganization (models.py): the pair of a
provider type string and an organization short name. -/
structure Organization where
  provider_type : String
  short_name : String
deriving DecidableEq, Repr

/-- AbstractApplication.GRANT_CLIENT_CREDENTIALS from oauth2_provider. -/
def GRANT_CLIENT_CREDENTIALS : String := "client-credentials"

/-- AbstractApplication.GRANT_AUTHORIZATION_CODE from oauth2_provider. -/
def GRANT_AUTHORIZATION_CODE : String := "authorization-code"

/-- ScopedApplication.FILTER_USER_ME (models.py). -/
def FILTER_USER_ME : String := "user:me"

/-- ScopedApplicationOrganization.CONTENT_PROVIDER_TYPE (models.py). -/
def CONTENT_PROVIDER_TYPE : String := "content_org"

/-- The ScopedApplication model (models.py): integer primary key, the
per-application list of allowed scope names, the grant type, the
skip_authorization flag inherited from AbstractApplication, and the related
ScopedApplicationOrganization rows (self.organizations.all() in iteration
order). -/
structure Application where
  id : Nat
  scopes : List String
  authorization_grant_type : String
  skip_authorization : Bool
  organizations : List Organization
deriving DecidableEq, Repr

/-- An AccessToken row of the oauth2_provider library, restricted to the
fields this codebase inspects: the owning application, the expiry timestamp,
and the granted scope set recorded at issuance (the space-delimited scope
string, modelled as the list of its tokens). -/
structure AccessToken where
  application_id : Nat
  expires : DateTime
  scope : List String
deriving DecidableEq, Repr

/-- RestrictedApplication.set_access_token_as_expired (models.py): sets
access_token.expires to datetime(1970, 1, 1, tzinfo=utc).  The Python method
mutates the token in place; the embedding returns the updated token. -/
def set_access_token_as_expired (access_token : AccessToken) : AccessToken :=
  { access_token with expires := epochSentinel }

/-- RestrictedApplication.verify_access_token_as_expired (models.py): returns
the result of comparing access_token.expires with
datetime(1970, 1, 1, tzinfo=utc) for equality. -/
def verify_access_token_as_expired (access_token : AccessToken) : Bool :=
  decide (access_token.expires = epochSentinel)

/-- ScopedApplication.authorization_filters (models.py): one tag per related
organization, built by joining provider_type and short_name with a colon,
and then, when the grant type is client-credentials, FILTER_USER_ME is
appended. -/
def authorization_filters (app : Application) : List String :=
  let filters := app.organizations.map
    (fun org => String.intercalate ":" [org.provider_type, org.short_name])
  if app.authorization_grant_type = GRANT_CLIENT_CREDENTIALS then
    filters ++ [FILTER_USER_ME]
  else
    filters

/-- The global scope registry (oauth2_provider settings SCOPES): a mapping
from scope name to human description, modelled as an association list. -/
def registryKeys (registry : List (String × String)) : List String :=
  registry.map Prod.fst

/-- Evaluation of the Python expression hasattr(STRING_SCOPES, application)
as it appears in ApplicationModelScopes.get_available_scopes (scopes.py),
where STRING_SCOPES denotes the string literal naming the scopes attribute.
The two arguments of hasattr are swapped in the source: the object position
holds that string and the name position holds the application argument.  The
builtin type-checks the name argument before any attribute lookup, and that
check raises TypeError for a non-string name in Python 2.7 and in Python 3
alike — the lookup-time exception swallowing of hasattr never applies to it.
The domain of the method is an Application model instance or the default
None, never a string, so the call raises on every input; the result is the
propagated exception, modelled as an error value. -/
def hasattr_swapped (application : Option Application) : Except String Bool :=
  Except.error "TypeError: hasattr(): attribute name must be string"

/-- ApplicationModelScopes.get_available_scopes (scopes.py).  Were the
hasattr test to succeed it would return the intersection of the declared
application scopes with the registry key set, and were it to evaluate to
False the method would fall back to the SettingsScopes default, the key set
of the global registry; but the swapped hasattr call raises before either
branch is chosen, and the method has no handler, so the exception propagates
to the caller and no scope set is ever returned. -/
def get_available_scopes (registry : List (String × String))
    (application : Option Application) : Except String (List String) :=
  match hasattr_swapped application with
  | Except.error e => Except.error e
  | Except.ok true =>
    match application with
    | some app =>
      Except.ok (app.scopes.filter (fun s => (registryKeys registry).contains s))
    | none => Except.error "AttributeError"
  | Except.ok false => Except.ok (registryKeys registry)

/-- A two-scope global registry used as concrete input. -/
def registryRW : List (String × String) :=
  [("read", "Read data"), ("write", "Write data")]

/-- A concrete application whose declared scope list is only the read scope. -/
def appReadOnly : Application :=
  ⟨7, ["read"], "authorization-code", false, []⟩

/-- The credentials dict produced by validate_authorization_request, restricted
to the keys the GET handler reads. -/
structure Credentials where
  client_id : String
  redirect_uri : String
  response_type : String
  state : String
deriving DecidableEq, Repr

/-- HTTP-level results the GET handler of EdxOAuth2AuthorizationView can
produce: the HttpResponseUriRedirect built from a successful
create_authorization_response call with allow set to true; the rendered
consent form carrying the validated scopes, their descriptions and the
application; the error_response conversion of a caught OAuthToolkitError; or
an opaque response returned by the default GET handler of the base
AuthorizationView (the super call), tagged so distinct default responses can
be told apart. -/
inductive Response where
  | uriRedirect (uri : String)
  | consentForm (scopes : List String) (descriptions : List String)
      (applicationId : Nat)
  | errorResponse (e : String)
  | defaultGet (tag : Nat)
deriving DecidableEq, Repr

/-- Modelled from the spec: AccessToken.allow_scopes of the external
oauth2_provider library, the prior-grant test of step 4 of the decision
engine, which checks that the recorded scope set of the token is a superset
of the requested scopes. -/
def allow_scopes (t : AccessToken) (scopes : List String) : Bool :=
  scopes.all (fun s => t.scope.contains s)

/-- The for loop over prior tokens in EdxOAuth2AuthorizationView.get
(views.py): the first token whose allow_scopes test succeeds returns the
grant redirect; when no token matches, the loop falls through to the consent
prompt.  Every match produces the same response, so first-match order only
matters for early exit, not for the value. -/
def priorTokenScan (tokens : List AccessToken) (scopes : List String)
    (grant fallback : Response) : Response :=
  match tokens with
  | [] => fallback
  | t :: rest =>
    if allow_scopes t scopes then grant
    else priorTokenScan rest scopes grant fallback

/-- Result of create_authorization_response with allow set to true, as the
GET handler consumes it: on success the redirect to the returned uri, and a
raised OAuthToolkitError is caught by the surrounding try and converted by
error_response. -/
def issuanceResponse (issuance : Except String String) : Response :=
  match issuance with
  | .error e => Response.errorResponse e
  | .ok uri => Response.uriRedirect uri

/-- EdxOAuth2AuthorizationView.get (views.py), as a function of the request
and of its external collaborators.  Parameters: the approval_prompt query
parameter (None when absent), the configured REQUEST_APPROVAL_PROMPT default,
the response the default GET handler of the base class would produce, the
outcome of validate_authorization_request (scopes and credentials, or a
raised OAuthToolkitError), the global scope description mapping, the
application lookup by client_id, the full access token set of the requesting
user, and the outcome of create_authorization_response.  The returned value
none models the AssertionError of the mode-invariant assert escaping the
handler (it is not an OAuthToolkitError, so the except clause would not catch
it); every ordinary outcome is some response.  The token fetch filters the
user tokens by application only: the expiry filter of the upstream
implementation is deliberately absent, as the commented-out expires filter in
the source highlights. -/
def edxAuthorizationGet
    (approval_prompt_param : Option String)
    (request_approval_prompt_setting : String)
    (superResponse : Response)
    (validation : Except String (List String × Credentials))
    (all_scopes : String → String)
    (lookupApplication : String → Application)
    (user_tokens : List AccessToken)
    (issuance : Except String String) : Option Response :=
  let require_approval :=
    approval_prompt_param.getD request_approval_prompt_setting
  if require_approval ≠ "auto_even_if_expired" then
    some superResponse
  else
    match validation with
    | .error e => some (Response.errorResponse e)
    | .ok (scopes, credentials) =>
      let scopes_descriptions := scopes.map all_scopes
      let application := lookupApplication credentials.client_id
      if application.skip_authorization then
        some (issuanceResponse issuance)
      else if require_approval = "auto_even_if_expired" then
        let tokens := user_tokens.filter
          (fun t => t.application_id = application.id)
        some (priorTokenScan tokens scopes (issuanceResponse issuance)
          (Response.consentForm scopes scopes_descriptions application.id))
      else
        none

theorem priorTokenScan_grant_of_match (tokens : List AccessToken)
    (scopes : List String) (grant fallback : Response)
    (h : ∃ t ∈ tokens, allow_scopes t scopes = true) :
    priorTokenScan tokens scopes grant fallback = grant := by
  induction tokens with
  | nil => obtain ⟨t, ht, _⟩ := h; exact absurd ht (List.not_mem_nil t)
  | cons t rest ih =>
    obtain ⟨u, hu, hallow⟩ := h
    rcases List.mem_cons.mp hu with h1 | h1
    · subst h1
      simp [priorTokenScan, hallow]
    · unfold priorTokenScan
      by_cases hm : allow_scopes t scopes
      · simp [hm]
      · simp [hm]
        exact ih ⟨u, h1, hallow⟩

theorem priorTokenScan_fallback_of_no_match (tokens : List AccessToken)
    (scopes : List String) (grant fallback : Response)
    (h : ∀ t ∈ tokens, allow_scopes t scopes = false) :
    priorTokenScan tokens scopes grant fallback = fallback := by
  induction tokens with
  | nil => rfl
  | cons t rest ih =>
    have hm : allow_scopes t scopes = false := h t (List.mem_cons_self t rest)
    unfold priorTokenScan
    simp [hm]
    exact ih (fun u hu => h u (List.mem_cons_of_mem t hu))

end OAuthDispatch

namespace OAuthDispatch

/-- C2: verify_access_token_as_expired returns true exactly when the expiry of
the token equals the epoch sentinel datetime(1970, 1, 1, tzinfo=utc); any
token whose expiry is a different timestamp, past or not, yields false. -/
theorem verify_token_restricted_iff_sentinel (t : AccessToken) :
    (verify_access_token_as_expired t = true ↔ t.expires = epochSentinel) ∧
    (t.expires ≠ epochSentinel → verify_access_token_as_expired t = false) := by
  constructor
  · simp [verify_access_token_as_expired]
  · intro h
    simp [verify_access_token_as_expired, h]

/-- Witness for C2 at a concrete token: an expiry in 2016, a past timestamp
distinct from the sentinel, makes verify_access_token_as_expired return
false. -/
theorem verify_token_restricted_iff_sentinel_witness :
    verify_access_token_as_expired ⟨1, ⟨2016, 5, 1, 0, 0, 0, 0⟩, []⟩ = false :=
  (verify_token_restricted_iff_sentinel ⟨1, ⟨2016, 5, 1, 0, 0, 0, 0⟩, []⟩).2
    (by decide)

/-- C8: set_access_token_as_expired is idempotent, and a single application
already leaves the expiry at the epoch sentinel; the function takes no clock
input, so its result is independent of the current time. -/
theorem set_token_expired_idempotent (t : AccessToken) :
    set_access_token_as_expired (set_access_token_as_expired t) =
      set_access_token_as_expired t ∧
    (set_access_token_as_expired t).expires = epochSentinel := by
  constructor <;> rfl

/-- C5: authorization_filters emits, in association order, one tag per
organization formatted as provider_type, colon, short_name, and appends the
synthetic FILTER_USER_ME tag exactly when the grant type is
client-credentials; in particular the two concrete applications of the claim
evaluate to the stated lists. -/
theorem authorization_filters_shape :
    (∀ app : Application,
      authorization_filters app =
        app.organizations.map
          (fun org => org.provider_type ++ ":" ++ org.short_name) ++
        (if app.authorization_grant_type = GRANT_CLIENT_CREDENTIALS
          then [FILTER_USER_ME] else [])) ∧
    authorization_filters
        ⟨1, [], "client-credentials", false, [⟨"content-provider", "org1"⟩]⟩ =
      ["content-provider:org1", "user:me"] ∧
    authorization_filters
        ⟨1, [], "authorization-code", false, [⟨"content-provider", "org1"⟩]⟩ =
      ["content-provider:org1"] := by
  refine ⟨fun app => ?_, by decide, by decide⟩
  unfold authorization_filters
  have hjoin : ∀ a b : String, String.intercalate ":" [a, b] = a ++ ":" ++ b := by
    intro a b
    rfl
  simp only [hjoin]
  by_cases h : app.authorization_grant_type = GRANT_CLIENT_CREDENTIALS
  · simp [h]
  · simp [h]

/-- A concrete in-house application with the skip_authorization flag set. -/
def appSkip : Application :=
  ⟨3, [], "authorization-code", true, []⟩

/-- Concrete credentials used by witnesses. -/
def creds0 : Credentials :=
  ⟨"client-abc", "https://client.example/cb", "code", "xyz"⟩

/-- C3: under the auto_even_if_expired mode with skip_authorization false,
any prior token of the user for the application whose recorded scope set
passes the allow_scopes superset test makes the handler return the grant
redirect of the successful authorization response with allow true, not the
consent form; the token fetch applies no expiry filter, so nothing in the
hypotheses constrains the expiry of the matching token. -/
theorem auto_mode_silent_reuse
    (d : String) (sup : Response)
    (validation : Except String (List String × Credentials))
    (all_scopes : String → String) (L : String → Application)
    (toks : List AccessToken) (iss : Except String String)
    (scopes : List String) (creds : Credentials) (app : Application)
    (uri : String) (t : AccessToken)
    (hv : validation = Except.ok (scopes, creds))
    (hL : L creds.client_id = app)
    (hskip : app.skip_authorization = false)
    (hiss : iss = Except.ok uri)
    (ht : t ∈ toks) (happ : t.application_id = app.id)
    (hallow : allow_scopes t scopes = true) :
    edxAuthorizationGet (some "auto_even_if_expired") d sup validation
      all_scopes L toks iss = some (Response.uriRedirect uri) := by
  subst hv hiss hL
  unfold edxAuthorizationGet
  rw [if_neg (by simp)]
  simp only [Option.getD_some, hskip, Bool.false_eq_true, if_false, if_pos]
  rw [priorTokenScan_grant_of_match]
  · rfl
  · exact ⟨t, List.mem_filter.mpr ⟨ht, by simp [happ]⟩, hallow⟩

/-- Witness for C3: the user holds a single prior token for the application,
pre-expired at the epoch sentinel, recorded with the read and write scopes; a
request for the read scope alone is granted silently with a redirect. -/
theorem auto_mode_silent_reuse_witness :
    edxAuthorizationGet (some "auto_even_if_expired") "force"
        (Response.defaultGet 0)
        (Except.ok (["read"], creds0)) (fun _ => "")
        (fun _ => ⟨7, [], "authorization-code", false, []⟩)
        [⟨7, epochSentinel, ["read", "write"]⟩]
        (Except.ok "https://client.example/cb?code=abc")
      = some (Response.uriRedirect "https://client.example/cb?code=abc") :=
  auto_mode_silent_reuse "force" (Response.defaultGet 0)
    (Except.ok (["read"], creds0)) (fun _ => "")
    (fun _ => ⟨7, [], "authorization-code", false, []⟩)
    [⟨7, epochSentinel, ["read", "write"]⟩]
    (Except.ok "https://client.example/cb?code=abc")
    ["read"] creds0 ⟨7, [], "authorization-code", false, []⟩
    "https://client.example/cb?code=abc" ⟨7, epochSentinel, ["read", "write"]⟩
    rfl rfl rfl rfl (List.mem_singleton.mpr rfl) rfl (by decide)

/-- C4: under the auto_even_if_expired mode, an application with
skip_authorization true makes the handler return the grant redirect of the
successful authorization response for every token history of the user — the
result does not depend on the token set, so no prior-grant lookup can have
influenced it — for any validated scope set. -/
theorem skip_authorization_bypasses_history
    (d : String) (sup : Response)
    (validation : Except String (List String × Credentials))
    (all_scopes : String → String) (L : String → Application)
    (iss : Except String String)
    (scopes : List String) (creds : Credentials) (app : Application)
    (uri : String)
    (hv : validation = Except.ok (scopes, creds))
    (hL : L creds.client_id = app)
    (hskip : app.skip_authorization = true)
    (hiss : iss = Except.ok uri) :
    ∀ user_tokens : List AccessToken,
      edxAuthorizationGet (some "auto_even_if_expired") d sup validation
        all_scopes L user_tokens iss = some (Response.uriRedirect uri) := by
  intro user_tokens
  subst hv hiss
  unfold edxAuthorizationGet
  rw [if_neg (by simp)]
  simp [hL, hskip, issuanceResponse]

/-- Witness for C4: an in-house application with the skip flag set is granted
a redirect although the user has a prior token covering none of the requested
scopes. -/
theorem skip_authorization_bypasses_history_witness :
    edxAuthorizationGet (some "auto_even_if_expired") "force"
        (Response.defaultGet 0)
        (Except.ok (["read", "write"], creds0)) (fun _ => "")
        (fun _ => appSkip)
        [⟨3, epochSentinel, ["email"]⟩]
        (Except.ok "https://client.example/cb?code=xyz")
      = some (Response.uriRedirect "https://client.example/cb?code=xyz") :=
  skip_authorization_bypasses_history "force" (Response.defaultGet 0) _
    (fun _ => "") _ _ ["read", "write"] creds0 appSkip
    "https://client.example/cb?code=xyz" rfl rfl rfl rfl
    [⟨3, epochSentinel, ["email"]⟩]

/-- C6: whenever the effective approval_prompt value — the query parameter
when present, the configured default otherwise — differs from
auto_even_if_expired, the handler returns exactly the response of the default
GET handler of the base class, whatever that response is, and the result is
the same for every token history of the user, so no prior-grant scan of the
user tokens occurs. -/
theorem legacy_passthrough
    (p : Option String) (d : String) (sup : Response)
    (validation : Except String (List String × Credentials))
    (all_scopes : String → String) (L : String → Application)
    (iss : Except String String)
    (h : p.getD d ≠ "auto_even_if_expired") :
    ∀ user_tokens : List AccessToken,
      edxAuthorizationGet p d sup validation all_scopes L user_tokens iss
        = some sup := by
  intro user_tokens
  unfold edxAuthorizationGet
  rw [if_pos h]

/-- Witness for C6, covering both an explicit approval_prompt value and the
absent-parameter case falling back to the configured default. -/
theorem legacy_passthrough_witness :
    edxAuthorizationGet (some "force") "auto" (Response.defaultGet 5)
        (Except.ok (["read"], creds0)) (fun _ => "") (fun _ => appSkip)
        [⟨3, epochSentinel, ["read"]⟩] (Except.ok "u")
      = some (Response.defaultGet 5) ∧
    edxAuthorizationGet none "auto" (Response.defaultGet 6)
        (Except.ok (["read"], creds0)) (fun _ => "") (fun _ => appSkip)
        [] (Except.ok "u")
      = some (Response.defaultGet 6) :=
  ⟨legacy_passthrough (some "force") "auto" (Response.defaultGet 5) _
      (fun _ => "") _ _ (by decide) [⟨3, epochSentinel, ["read"]⟩],
   legacy_passthrough none "auto" (Response.defaultGet 6) _
      (fun _ => "") _ _ (by decide) []⟩

/-- C7: under the auto_even_if_expired mode with skip_authorization false,
when no prior token of the user for the application passes the allow_scopes
superset test, the handler renders the consent form carrying the validated
scopes, their descriptions from the global scope mapping, and the
application, and this holds for every outcome of the authorization response
creator — the issuance collaborator is never consulted, so no token is
created. -/
theorem no_covering_grant_prompts
    (d : String) (sup : Response)
    (validation : Except String (List String × Credentials))
    (all_scopes : String → String) (L : String → Application)
    (toks : List AccessToken)
    (scopes : List String) (creds : Credentials) (app : Application)
    (hv : validation = Except.ok (scopes, creds))
    (hL : L creds.client_id = app)
    (hskip : app.skip_authorization = false)
    (hnomatch : ∀ t ∈ toks, t.application_id = app.id →
      allow_scopes t scopes = false) :
    ∀ iss : Except String String,
      edxAuthorizationGet (some "auto_even_if_expired") d sup validation
        all_scopes L toks iss
        = some (Response.consentForm scopes (scopes.map all_scopes) app.id) := by
  intro iss
  subst hv hL
  unfold edxAuthorizationGet
  rw [if_neg (by simp)]
  simp only [Option.getD_some, hskip, Bool.false_eq_true, if_false, if_pos]
  rw [priorTokenScan_fallback_of_no_match]
  intro t htf
  have hm := List.mem_filter.mp htf
  exact hnomatch t hm.1 (by simpa using hm.2)

/-- Witness for C7: the only prior token covers read and write, the request
asks for read, write and email, so the consent form with the three scopes is
rendered. -/
theorem no_covering_grant_prompts_witness :
    edxAuthorizationGet (some "auto_even_if_expired") "force"
        (Response.defaultGet 0)
        (Except.ok (["read", "write", "email"], creds0)) (fun s => s)
        (fun _ => ⟨7, [], "authorization-code", false, []⟩)
        [⟨7, epochSentinel, ["read", "write"]⟩]
        (Except.ok "https://client.example/cb?code=abc")
      = some (Response.consentForm ["read", "write", "email"]
          ["read", "write", "email"] 7) :=
  no_covering_grant_prompts "force" (Response.defaultGet 0)
    (Except.ok (["read", "write", "email"], creds0)) (fun s => s)
    (fun _ => ⟨7, [], "authorization-code", false, []⟩)
    [⟨7, epochSentinel, ["read", "write"]⟩]
    ["read", "write", "email"] creds0 ⟨7, [], "authorization-code", false, []⟩
    rfl rfl rfl (by decide)
    (Except.ok "https://client.example/cb?code=abc")

/-- C9: inside the auto_even_if_expired branch, a raised OAuthToolkitError is
caught and converted into the error response: a validation failure makes the
handler return the converted error no matter what the issuance collaborator
would do, and an issuance failure on any path that reaches issuance — the
skip flag, or a prior token passing the superset test — likewise returns the
converted error; in both cases the result is the error response, not a
redirect and not a consent form, so no authorization response is issued. -/
theorem oauth_errors_converted
    (d : String) (sup : Response) (all_scopes : String → String)
    (L : String → Application) (toks : List AccessToken) :
    (∀ (e : String) (iss : Except String String),
      edxAuthorizationGet (some "auto_even_if_expired") d sup
          (Except.error e) all_scopes L toks iss
        = some (Response.errorResponse e)) ∧
    (∀ (scopes : List String) (creds : Credentials) (e : String),
      ((L creds.client_id).skip_authorization = true ∨
        ∃ t ∈ toks, t.application_id = (L creds.client_id).id ∧
          allow_scopes t scopes = true) →
      edxAuthorizationGet (some "auto_even_if_expired") d sup
          (Except.ok (scopes, creds)) all_scopes L toks (Except.error e)
        = some (Response.errorResponse e)) := by
  constructor
  · intro e iss
    unfold edxAuthorizationGet
    rw [if_neg (by simp)]
  · intro scopes creds e hreach
    unfold edxAuthorizationGet
    rw [if_neg (by simp)]
    rcases hreach with hskip | ⟨t, ht, happ, hallow⟩
    · simp [hskip, issuanceResponse]
    · by_cases hs : (L creds.client_id).skip_authorization
      · simp [hs, issuanceResponse]
      · simp only [Option.getD_some, hs, Bool.false_eq_true, if_false, if_pos]
        rw [priorTokenScan_grant_of_match]
        · rfl
        · exact ⟨t, List.mem_filter.mpr ⟨ht, by simp [happ]⟩, hallow⟩

/-- Witness for C9: a concrete validation error is converted to the error
response, and a concrete issuance error on the skip path is converted as
well. -/
theorem oauth_errors_converted_witness :
    edxAuthorizationGet (some "auto_even_if_expired") "force"
        (Response.defaultGet 0) (Except.error "invalid_request")
        (fun _ => "") (fun _ => appSkip) [] (Except.ok "u")
      = some (Response.errorResponse "invalid_request") ∧
    edxAuthorizationGet (some "auto_even_if_expired") "force"
        (Response.defaultGet 0) (Except.ok (["read"], creds0))
        (fun _ => "") (fun _ => appSkip) [] (Except.error "server_error")
      = some (Response.errorResponse "server_error") :=
  ⟨(oauth_errors_converted "force" (Response.defaultGet 0) (fun _ => "")
      (fun _ => appSkip) []).1 "invalid_request" (Except.ok "u"),
   (oauth_errors_converted "force" (Response.defaultGet 0) (fun _ => "")
      (fun _ => appSkip) []).2 ["read"] creds0 "server_error" (Or.inl rfl)⟩

/-- C10: the mode-invariant assert in the prior-grant branch never fails: for
every combination of inputs the handler produces a response and never the
escaping AssertionError modelled by none, because any request whose effective
approval_prompt value differs from auto_even_if_expired already returned
through the passthrough branch before the assert is reached. -/
theorem mode_invariant_assert_unreachable
    (p : Option String) (d : String) (sup : Response)
    (validation : Except String (List String × Credentials))
    (all_scopes : String → String) (L : String → Application)
    (toks : List AccessToken) (iss : Except String String) :
    (edxAuthorizationGet p d sup validation all_scopes L toks iss).isSome
      = true := by
  unfold edxAuthorizationGet
  by_cases h : p.getD d = "auto_even_if_expired"
  · rw [if_neg (by simp [h])]
    cases validation with
    | error e => simp
    | ok v =>
      obtain ⟨scopes, creds⟩ := v
      by_cases hs : (L creds.client_id).skip_authorization
      · simp [hs]
      · simp [hs, h]
  · rw [if_pos h]
    simp

/-- C1: evaluation of get_available_scopes at the failing input.  For the
application declaring only the read scope the method raises TypeError out of
the swapped hasattr call instead of returning the claimed intersection with
the registry key set, and for an absent application it raises the same way
instead of returning the registry key set of the default behavior: no scope
set is ever produced on any input. -/
theorem get_available_scopes_raises_type_error :
    get_available_scopes registryRW (some appReadOnly)
      = Except.error "TypeError: hasattr(): attribute name must be string" ∧
    get_available_scopes registryRW none
      = Except.error "TypeError: hasattr(): attribute name must be string" :=
  ⟨rfl, rfl⟩

end OAuthDispatch
